import Mathlib

/-!
Verification of the complete-number arithmetic in src/complete_numbers.py.

The file embeds the two classes of the source, CompleteComponent and
CompleteNumber, together with their operator methods, and proves (or
refutes) the specified algebraic laws.  Python float values are modelled
as exact rationals; Python exceptions are modelled with an explicit error
type and Except-valued operations; the NotImplemented marker returned by
reflected operators is a third outcome of its own.
-/

/-- Python exceptions raised by the operators of the source file. -/
inductive PyError where
  | zeroDivision (msg : String)
  | attributeError (attr : String)
  deriving DecidableEq

/-- Decimal digits of the fraction rem/d (with rem < d), produced most
significant first, up to the given fuel.  Helper for floatStr. -/
def fracDigits (rem d : Nat) : Nat → String
  | 0 => ""
  | fuel + 1 =>
    if rem = 0 then ""
    else toString (rem * 10 / d) ++ fracDigits (rem * 10 % d) d fuel

/-- Models the Python str() conversion of a float, for the values the
repository produces: an optional sign, the integer part, a decimal point,
and the fractional digits, with a single 0 after the point when the value
is integral (str(3.0) is "3.0"). -/
def floatStr (q : ℚ) : String :=
  let sign := if q.num < 0 then "-" else ""
  let n := q.num.natAbs
  let d := q.den
  sign ++ toString (n / d) ++ "." ++ (if n % d = 0 then "0" else fracDigits (n % d) d 20)

/-- One replacement pass over a character list: every non-overlapping
occurrence of pat is replaced by rep, scanning left to right, with fuel
bounding the recursion.  Helper for pyReplace. -/
def replaceChars (pat rep : List Char) : Nat → List Char → List Char
  | 0, l => l
  | _ + 1, [] => []
  | fuel + 1, c :: rest =>
    if pat = (c :: rest).take pat.length then
      rep ++ replaceChars pat rep fuel ((c :: rest).drop pat.length)
    else c :: replaceChars pat rep fuel rest

/-- Models the Python str.replace method: replaces every non-overlapping
occurrence of pat in s by rep, scanning left to right. -/
def pyReplace (s pat rep : String) : String :=
  ⟨replaceChars pat.data rep.data s.data.length s.data⟩

/-- The CompleteComponent class: a scalar field value together with the
component-type string the source stores in _type ("real" or "imag"). -/
structure CompleteComponent where
  value : ℚ
  ctype : String
  deriving DecidableEq

/-- Result of CompleteComponent multiplication in the source: either a
formatted absorbed string (zero multiplier) or a plain number. -/
inductive CompMulResult where
  | strVal (s : String)
  | numVal (q : ℚ)
  deriving DecidableEq

/-- Outcome of a reflected Python operator: a value, a raised exception,
or the NotImplemented marker. -/
inductive PyResult (α : Type) where
  | ok (a : α)
  | exn (e : PyError)
  | notImplemented
  deriving DecidableEq

/-- CompleteComponent multiplication (source lines 25-35): multiplying by
zero yields the formatted absorbed string, with suffix u for the "real"
component type and uj otherwise; any other multiplier yields the plain
product. -/
def CompleteComponent.mul (c : CompleteComponent) (s : ℚ) : CompMulResult :=
  if s = 0 then
    if c.ctype = "real" then .strVal (floatStr c.value ++ "u")
    else .strVal (floatStr c.value ++ "uj")
  else .numVal (c.value * s)

/-- CompleteComponent reflected multiplication (source lines 51-52):
delegates to forward multiplication. -/
def CompleteComponent.rmul (c : CompleteComponent) (s : ℚ) : CompMulResult :=
  c.mul s

/-- CompleteComponent division (source lines 37-44): division by zero
raises ZeroDivisionError, otherwise the plain quotient is returned. -/
def CompleteComponent.div (c : CompleteComponent) (s : ℚ) : Except PyError ℚ :=
  if s = 0 then .error (.zeroDivision "float division by zero")
  else .ok (c.value / s)

/-- The first definition of the reflected division method on
CompleteComponent (source lines 46-49).  It is dead code: the second
definition of the same method name later in the class body replaces it. -/
def CompleteComponent.rtruedivShadowed (c : CompleteComponent) (s : ℚ) : Except PyError ℚ :=
  if c.value = 0 then .error (.zeroDivision "float division by zero")
  else .ok (s / c.value)

/-- The effective reflected division method on CompleteComponent (source
lines 54-57): the second definition of the method in the class body, which
returns NotImplemented for every operand. -/
def CompleteComponent.rtruediv (_c : CompleteComponent) (_s : ℚ) : PyResult ℚ :=
  .notImplemented

/-- The CompleteNumber class: four float fields real, imag, u_real,
u_imag (source lines 65-70). -/
structure CompleteNumber where
  real : ℚ
  imag : ℚ
  u_real : ℚ
  u_imag : ℚ
  deriving DecidableEq

/-- Two-argument construction CompleteNumber(real, imag): the absorbed
fields u_real and u_imag default to 0 in the constructor. -/
def CompleteNumber.of (r i : ℚ) : CompleteNumber := ⟨r, i, 0, 0⟩

/-- The .real property (source lines 72-74): a CompleteComponent wrapping
the real field, tagged with the component-type string "real". -/
def CompleteNumber.realComp (x : CompleteNumber) : CompleteComponent :=
  ⟨x.real, "real"⟩

/-- The .imag property (source lines 76-78): a CompleteComponent wrapping
the imag field, tagged with the component-type string "imag". -/
def CompleteNumber.imagComp (x : CompleteNumber) : CompleteComponent :=
  ⟨x.imag, "imag"⟩

/-- CompleteNumber multiplication by a scalar (source lines 80-88).
Multiplying by zero moves real and imag into the absorbed slots; any
other multiplier scales real and imag and builds the result with the
two-argument constructor, whose u_real and u_imag default to 0. -/
def CompleteNumber.mul (x : CompleteNumber) (s : ℚ) : CompleteNumber :=
  if s = 0 then ⟨0, 0, x.real, x.imag⟩
  else ⟨x.real * s, x.imag * s, 0, 0⟩

/-- CompleteNumber reflected multiplication (source lines 121-122):
delegates to forward multiplication. -/
def CompleteNumber.rmul (x : CompleteNumber) (s : ℚ) : CompleteNumber :=
  x.mul s

/-- CompleteNumber division by a scalar (source lines 90-113).  Division
by zero raises ZeroDivisionError when real or imag is nonzero and
otherwise rebuilds the absorbed values through the two-argument
constructor; a nonzero divisor scales all four fields. -/
def CompleteNumber.div (x : CompleteNumber) (s : ℚ) : Except PyError CompleteNumber :=
  if s = 0 then
    if x.real ≠ 0 ∨ x.imag ≠ 0 then .error (.zeroDivision "division by zero")
    else .ok (CompleteNumber.of x.u_real x.u_imag)
  else .ok ⟨x.real / s, x.imag / s, x.u_real / s, x.u_imag / s⟩

/-- Attribute lookup of self._value on a CompleteNumber: the class stores
only _real, _imag, _u_real and _u_imag, so the lookup raises
AttributeError. -/
def CompleteNumber.lookupValueAttr (_x : CompleteNumber) : Except PyError ℚ :=
  .error (.attributeError "_value")

/-- CompleteNumber reflected division (source lines 115-119): the method
body reads self._value before comparing it with zero, so the attribute
lookup is evaluated first and its outcome propagates. -/
def CompleteNumber.rtruediv (x : CompleteNumber) (s : ℚ) : Except PyError ℚ :=
  x.lookupValueAttr.bind fun v =>
    if v = 0 then .error (.zeroDivision "division by zero")
    else .ok (s / v)

/-- CompleteNumber textual rendering (source lines 124-135): the nonzero
terms in the order real, imag-j, u_real-u, u_imag-uj, with the real term
also included when the other three fields are all zero, joined by " + "
and with " + -" rewritten to " - ". -/
def CompleteNumber.reprStr (x : CompleteNumber) : String :=
  let parts : List String :=
    (if x.real ≠ 0 ∨ (x.imag = 0 ∧ x.u_real = 0 ∧ x.u_imag = 0) then [floatStr x.real] else [])
    ++ (if x.imag ≠ 0 then [floatStr x.imag ++ "j"] else [])
    ++ (if x.u_real ≠ 0 then [floatStr x.u_real ++ "u"] else [])
    ++ (if x.u_imag ≠ 0 then [floatStr x.u_imag ++ "uj"] else [])
  pyReplace (String.intercalate " + " parts) " + -" " - "

/-- Rendering as the specification words it: the nonzero terms in the
fixed order [real, imag-j, u_real-u, u_imag-uj] joined by " + " with
" + -" rendered as " - ", except that the all-zero number renders as
"0.0".  Written from the spec text to compare against reprStr. -/
def CompleteNumber.reprSpec (x : CompleteNumber) : String :=
  if x.real = 0 ∧ x.imag = 0 ∧ x.u_real = 0 ∧ x.u_imag = 0 then "0.0"
  else
    let terms : List String :=
      (if x.real ≠ 0 then [floatStr x.real] else [])
      ++ (if x.imag ≠ 0 then [floatStr x.imag ++ "j"] else [])
      ++ (if x.u_real ≠ 0 then [floatStr x.u_real ++ "u"] else [])
      ++ (if x.u_imag ≠ 0 then [floatStr x.u_imag ++ "uj"] else [])
    pyReplace (String.intercalate " + " terms) " + -" " - "

/-- C1: multiplying any CompleteNumber with fields (r, i, ur, ui) by the
scalar 0 returns CompleteNumber(0, 0, r, i): real and imag move into the
absorbed slots, and pre-existing absorbed values ur, ui are overwritten,
not accumulated. -/
theorem mul_zero_absorbs (r i ur ui : ℚ) :
    (CompleteNumber.mk r i ur ui).mul 0 = ⟨0, 0, r, i⟩ := by
  simp [CompleteNumber.mul]

/-- C2: dividing a CompleteNumber by zero fails with ZeroDivisionError
exactly when real or imag is nonzero; when both are zero it returns
CompleteNumber(u_real, u_imag, 0, 0), so absorption followed by recovery
is the identity on (r, i). -/
theorem div_zero_recovery_and_guard :
    (∀ x : CompleteNumber, x.real = 0 → x.imag = 0 →
      x.div 0 = .ok ⟨x.u_real, x.u_imag, 0, 0⟩) ∧
    (∀ x : CompleteNumber, x.real ≠ 0 ∨ x.imag ≠ 0 →
      x.div 0 = .error (.zeroDivision "division by zero")) ∧
    (∀ r i : ℚ, ((CompleteNumber.of r i).mul 0).div 0 = .ok (CompleteNumber.of r i)) := by
  refine ⟨?_, ?_, ?_⟩
  · intro x h1 h2
    simp [CompleteNumber.div, CompleteNumber.of, h1, h2]
  · intro x h
    simp [CompleteNumber.div, h]
  · intro r i
    simp [CompleteNumber.mul, CompleteNumber.div, CompleteNumber.of]

/-- Witness for C2 at concrete inputs. -/
theorem div_zero_recovery_and_guard_witness :
    (CompleteNumber.mk 0 0 5 7).div 0 = .ok ⟨5, 7, 0, 0⟩ ∧
    (CompleteNumber.mk 3 4 0 0).div 0 = .error (.zeroDivision "division by zero") ∧
    ((CompleteNumber.of 3 4).mul 0).div 0 = .ok (CompleteNumber.of 3 4) :=
  ⟨div_zero_recovery_and_guard.1 ⟨0, 0, 5, 7⟩ rfl rfl,
   div_zero_recovery_and_guard.2.1 ⟨3, 4, 0, 0⟩ (Or.inl (by decide)),
   div_zero_recovery_and_guard.2.2 3 4⟩

/-- C3 counterexample: multiplying (1, 2, 3, 4) by the nonzero scalar 2
yields (2, 4, 0, 0), not (2, 4, 3, 4): the absorbed fields do not pass
through unchanged. -/
theorem mul_nonzero_cex :
    (CompleteNumber.mk 1 2 3 4).mul 2 = ⟨2, 4, 0, 0⟩ ∧
    (CompleteNumber.mk 1 2 3 4).mul 2 ≠ ⟨2, 4, 3, 4⟩ := by
  constructor
  · simp [CompleteNumber.mul]
    norm_num
  · intro h
    have h4 := congrArg CompleteNumber.u_imag h
    simp [CompleteNumber.mul] at h4

/-- C3 amended: for a nonzero scalar s, multiplication returns
CompleteNumber(r*s, i*s, 0, 0): real and imag scale while the absorbed
fields are reset to the constructor defaults of zero. -/
theorem mul_nonzero_resets_absorbed (x : CompleteNumber) (s : ℚ) (hs : s ≠ 0) :
    x.mul s = ⟨x.real * s, x.imag * s, 0, 0⟩ := by
  simp [CompleteNumber.mul, hs]

/-- Witness for the amended C3 at a concrete input. -/
theorem mul_nonzero_resets_absorbed_witness :
    (CompleteNumber.mk 1 2 3 4).mul 2 = ⟨2, 4, 0, 0⟩ :=
  (mul_nonzero_resets_absorbed ⟨1, 2, 3, 4⟩ 2 (by decide)).trans (by norm_num)

/-- C4 counterexample: for x = (1, 2, 3, 4) and s = 2, (x / 2) * 2
evaluates to (1, 2, 0, 0), which differs from x in the absorbed fields by
far more than any floating-point tolerance. -/
theorem scaling_identity_cex :
    ((CompleteNumber.mk 1 2 3 4).div 2).map (fun y => y.mul 2) = .ok ⟨1, 2, 0, 0⟩ ∧
    ((CompleteNumber.mk 1 2 3 4).div 2).map (fun y => y.mul 2) ≠ .ok ⟨1, 2, 3, 4⟩ := by
  have h : ((CompleteNumber.mk 1 2 3 4).div 2).map (fun y => y.mul 2) = .ok ⟨1, 2, 0, 0⟩ := by
    simp [CompleteNumber.div, CompleteNumber.mul, Except.map]
  refine ⟨h, ?_⟩
  rw [h]
  intro hcon
  have h4 := congrArg CompleteNumber.u_imag (Except.ok.inj hcon)
  norm_num at h4

/-- C4 amended: for every nonzero scalar s, (x / s) * s equals
CompleteNumber(r, i, 0, 0) exactly (in the exact-arithmetic model): the
identity holds on real and imag, while the nonzero multiply resets the
absorbed fields to zero; the full four-field identity holds when u_real
and u_imag are zero. -/
theorem scaling_identity_on_active_fields :
    (∀ (x : CompleteNumber) (s : ℚ), s ≠ 0 →
      (x.div s).map (fun y => y.mul s) = .ok ⟨x.real, x.imag, 0, 0⟩) ∧
    (∀ (x : CompleteNumber) (s : ℚ), s ≠ 0 → x.u_real = 0 → x.u_imag = 0 →
      (x.div s).map (fun y => y.mul s) = .ok x) := by
  have key : ∀ (x : CompleteNumber) (s : ℚ), s ≠ 0 →
      (x.div s).map (fun y => y.mul s) = .ok ⟨x.real, x.imag, 0, 0⟩ := by
    intro x s hs
    simp [CompleteNumber.div, CompleteNumber.mul, Except.map, hs, div_mul_cancel₀]
  refine ⟨key, ?_⟩
  intro x s hs h3 h4
  rw [key x s hs]
  cases x
  simp_all

/-- Witness for the amended C4 at concrete inputs. -/
theorem scaling_identity_on_active_fields_witness :
    ((CompleteNumber.mk 1 2 3 4).div 2).map (fun y => y.mul 2) = .ok ⟨1, 2, 0, 0⟩ ∧
    ((CompleteNumber.mk 1 2 0 0).div 2).map (fun y => y.mul 2) = .ok ⟨1, 2, 0, 0⟩ :=
  ⟨scaling_identity_on_active_fields.1 ⟨1, 2, 3, 4⟩ 2 (by decide),
   scaling_identity_on_active_fields.2 ⟨1, 2, 0, 0⟩ 2 (by decide) rfl rfl⟩

/-- C5: a component multiplied by zero becomes the absorbed string, with
suffix u for the real slot and uj for the imag slot; in particular
CompleteNumber(3,4).real * 0 renders as "3.0u" and .imag * 0 as "4.0uj";
a nonzero scalar yields the bare product with the tag dropped; reflected
multiplication agrees with forward multiplication. -/
theorem component_mul_law :
    (∀ v : ℚ, (CompleteComponent.mk v "real").mul 0 = .strVal (floatStr v ++ "u")) ∧
    (∀ v : ℚ, (CompleteComponent.mk v "imag").mul 0 = .strVal (floatStr v ++ "uj")) ∧
    (CompleteNumber.of 3 4).realComp.mul 0 = .strVal "3.0u" ∧
    (CompleteNumber.of 3 4).imagComp.mul 0 = .strVal "4.0uj" ∧
    (∀ (c : CompleteComponent) (s : ℚ), s ≠ 0 → c.mul s = .numVal (c.value * s)) ∧
    (∀ (c : CompleteComponent) (s : ℚ), c.rmul s = c.mul s) := by
  refine ⟨?_, ?_, by decide, by decide, ?_, fun c s => rfl⟩
  · intro v
    simp [CompleteComponent.mul]
  · intro v
    simp [CompleteComponent.mul]
  · intro c s hs
    simp [CompleteComponent.mul, hs]

/-- Witness for C5 at concrete inputs. -/
theorem component_mul_law_witness :
    (CompleteComponent.mk 5 "real").mul 0 = .strVal (floatStr 5 ++ "u") ∧
    (CompleteComponent.mk 3 "real").mul 2 = .numVal (3 * 2) :=
  ⟨component_mul_law.1 5,
   component_mul_law.2.2.2.2.1 ⟨3, "real"⟩ 2 (by decide)⟩

/-- C6: dividing a component by zero always fails with ZeroDivisionError,
for every value and slot; a nonzero divisor returns the plain quotient of
the wrapped value. -/
theorem component_div_law :
    (∀ c : CompleteComponent, c.div 0 = .error (.zeroDivision "float division by zero")) ∧
    (∀ (c : CompleteComponent) (s : ℚ), s ≠ 0 → c.div s = .ok (c.value / s)) := by
  constructor
  · intro c
    simp [CompleteComponent.div]
  · intro c s hs
    simp [CompleteComponent.div, hs]

/-- Witness for C6 at concrete inputs. -/
theorem component_div_law_witness :
    (CompleteComponent.mk 3 "real").div 0 = .error (.zeroDivision "float division by zero") ∧
    (CompleteComponent.mk 3 "real").div 2 = .ok (3 / 2) :=
  ⟨component_div_law.1 ⟨3, "real"⟩,
   component_div_law.2 ⟨3, "real"⟩ 2 (by decide)⟩

/-- C7 counterexample: for the component with value 2 and scalar 1, the
effective reflected division returns NotImplemented rather than the
quotient 1/2 the claim describes. -/
theorem component_rdiv_cex :
    CompleteComponent.rtruediv ⟨2, "real"⟩ 1 = .notImplemented ∧
    CompleteComponent.rtruediv ⟨2, "real"⟩ 1 ≠ .ok (1 / 2) :=
  ⟨rfl, fun h => PyResult.noConfusion h⟩

/-- C7 amended: the effective reflected division on a component returns
NotImplemented for every scalar and component, because the second
definition of the method shadows the first; the guarded behavior the
claim describes (quotient when value is nonzero, ZeroDivisionError when
it is zero) is exactly that of the shadowed dead definition. -/
theorem component_rdiv_unsupported :
    (∀ (c : CompleteComponent) (s : ℚ), c.rtruediv s = .notImplemented) ∧
    (∀ (c : CompleteComponent) (s : ℚ), c.value ≠ 0 →
      c.rtruedivShadowed s = .ok (s / c.value)) ∧
    (∀ (c : CompleteComponent) (s : ℚ), c.value = 0 →
      c.rtruedivShadowed s = .error (.zeroDivision "float division by zero")) := by
  refine ⟨fun c s => rfl, ?_, ?_⟩
  · intro c s hc
    simp [CompleteComponent.rtruedivShadowed, hc]
  · intro c s hc
    simp [CompleteComponent.rtruedivShadowed, hc]

/-- Witness for the amended C7 at concrete inputs. -/
theorem component_rdiv_unsupported_witness :
    CompleteComponent.rtruediv ⟨5, "imag"⟩ 7 = .notImplemented ∧
    (CompleteComponent.mk 2 "real").rtruedivShadowed 1 = .ok (1 / 2) ∧
    (CompleteComponent.mk 0 "real").rtruedivShadowed 1
      = .error (.zeroDivision "float division by zero") :=
  ⟨component_rdiv_unsupported.1 ⟨5, "imag"⟩ 7,
   component_rdiv_unsupported.2.1 ⟨2, "real"⟩ 1 (by decide),
   component_rdiv_unsupported.2.2 ⟨0, "real"⟩ 1 rfl⟩

/-- C8: reflected division on the composite type reads the nonexistent
attribute _value, so for every scalar and every CompleteNumber the call
aborts with AttributeError rather than signalling a typed
NotImplemented/UnsupportedOperand failure; shown at the failing input
1 / CompleteNumber(3, 4) and in general. -/
theorem composite_rdiv_attribute_error :
    (CompleteNumber.of 3 4).rtruediv 1 = .error (.attributeError "_value") ∧
    (∀ (x : CompleteNumber) (s : ℚ), x.rtruediv s = .error (.attributeError "_value")) :=
  ⟨rfl, fun _ _ => rfl⟩

/-- C10: the all-zero CompleteNumber divided by zero does not fail: it
returns the all-zero CompleteNumber, and more generally when real and
imag are both zero the division-by-zero branch raises no error. -/
theorem zero_div_zero_ok :
    (CompleteNumber.mk 0 0 0 0).div 0 = .ok ⟨0, 0, 0, 0⟩ ∧
    (∀ x : CompleteNumber, x.real = 0 → x.imag = 0 →
      ∀ e : PyError, x.div 0 ≠ .error e) := by
  constructor
  · simp [CompleteNumber.div, CompleteNumber.of]
  · intro x h1 h2 e hcon
    simp [CompleteNumber.div, h1, h2] at hcon

/-- Witness for C10 at a concrete input. -/
theorem zero_div_zero_ok_witness :
    (CompleteNumber.mk 0 0 0 0).div 0 ≠ .error (.zeroDivision "division by zero") :=
  zero_div_zero_ok.2 ⟨0, 0, 0, 0⟩ rfl rfl (.zeroDivision "division by zero")

/-- C9: the textual rendering emits exactly the nonzero terms in the
fixed order [real, imag-j, u_real-u, u_imag-uj] joined by " + " with
negative terms rendered as " - " instead of " + -", with the real term
force-included for the all-zero number; in particular (3, 4) renders as
"3.0 + 4.0j", (0, 0, 3, 4) as "3.0u + 4.0uj" and (0, 0, 0, 0) as
"0.0". -/
theorem repr_rendering :
    (∀ x : CompleteNumber, x.reprStr = x.reprSpec) ∧
    (CompleteNumber.of 3 4).reprStr = "3.0 + 4.0j" ∧
    (CompleteNumber.mk 0 0 3 4).reprStr = "3.0u + 4.0uj" ∧
    (CompleteNumber.of 0 0).reprStr = "0.0" := by
  refine ⟨?_, by decide, by decide, by decide⟩
  intro x
  by_cases h0 : x.real = 0 ∧ x.imag = 0 ∧ x.u_real = 0 ∧ x.u_imag = 0
  · obtain ⟨h1, h2, h3, h4⟩ := h0
    simp only [CompleteNumber.reprStr, CompleteNumber.reprSpec, h1, h2, h3, h4]
    simp
    decide
  · have hreal : (x.real ≠ 0 ∨ (x.imag = 0 ∧ x.u_real = 0 ∧ x.u_imag = 0)) ↔ x.real ≠ 0 := by
      constructor
      · rintro (h | h)
        · exact h
        · intro hr
          exact h0 ⟨hr, h⟩
      · exact Or.inl
    simp only [CompleteNumber.reprStr, CompleteNumber.reprSpec, hreal, if_neg h0]
